import Mathlib

/-!
Shallow embedding of the bts charting layer (src/charts.py and
src/chart_layout.py) together with theorems settling the specification
claims about it.

Conventions of the embedding:

* Python numbers that the code obtains through float() are modelled as
  rationals; geometric constants of the layout module live in the reals
  because WIDTH is built from a square root.
* Python exceptions are modelled by the Except monad over the PyErr type
  below: a chart method either returns an outcome (the figure handed to
  the renderer plus the value the Python function returns) or the error
  that the corresponding Python call raises.
* Python dicts keyed by known string constants are modelled as
  association lists; a missing key turns the KeyError into an error value.
-/

set_option autoImplicit false

namespace Bts

/-! ## chart_layout.py: module constants -/

/-- HEIGHT = 500. -/
noncomputable def HEIGHT : ℝ := 500

/-- WIDTH = HEIGHT * (1.5 + np.sqrt(5)) / 2. -/
noncomputable def WIDTH : ℝ := HEIGHT * (1.5 + Real.sqrt 5) / 2

/-- The fixed margin dict of chart_layout.py. -/
structure Margin where
  l : ℝ
  r : ℝ
  t : ℝ
  b : ℝ

/-- MARGIN = dict(l=80, r=80, t=100, b=80). -/
noncomputable def MARGIN : Margin := { l := 80, r := 80, t := 100, b := 80 }

/-- FONT_FAMILY constant. -/
def FONT_FAMILY : String := "Trebuchet MS"

/-- FONT_SIZE = 16. -/
noncomputable def FONT_SIZE : ℝ := 16

/-- TITLE_SIZE = FONT_SIZE + 8. -/
noncomputable def TITLE_SIZE : ℝ := FONT_SIZE + 8

/-- GREY color constant. -/
def GREY : String := "#EFECEA"

/-- LIGHT_GREY color constant. -/
def LIGHT_GREY : String := "#E5E2E0"

/-- WHITE color constant. -/
def WHITE : String := "#FFFFFF"

/-- DARK_TEXT color constant. -/
def DARK_TEXT : String := "#635F5D"

/-- LIGHT_TEXT color constant. -/
def LIGHT_TEXT : String := "#8E8883"

/-- The fixed ten-color default theme PALETTE of chart_layout.py. -/
def PALETTE : List String :=
  ["#4e79a7", "#f28e2b", "#e15759", "#76b7b2", "#59a14f",
   "#edc948", "#b07aa1", "#ff9da7", "#9c755f", "#bab0ac"]

/-! ## Python-level helpers -/

/-- Python list indexing xs[i]: a negative index counts from the end of the
list, and an index that is still out of range yields none (IndexError). -/
def pyIndex {α : Type} (xs : List α) (i : Int) : Option α :=
  let j := if i < 0 then (xs.length : Int) + i else i
  if 0 ≤ j then xs.get? j.toNat else none

/-- The palette function of chart_layout.py.  The Python signature is
palette(n=1, theme=PALETTE); the local color_length = len(theme) is
inlined.  If n > len(theme) the color is theme[n - color_length - 1],
otherwise theme[n - 1], both with Python list-index semantics. -/
def palette (n : Int) (theme : List String) : Option String :=
  if n > (theme.length : Int) then pyIndex theme (n - (theme.length : Int) - 1)
  else pyIndex theme (n - 1)

/-- The exceptions that the charting code can raise.  Each constructor
records which Python exception it models:

* columnCoercion: the ValueError raised by float(v) on a non-numeric
  entry of the named value column (the error the spec names
  ColumnCoercionError);
* missingAxisConfig: the KeyError raised by axis_args["y2"] in
  two_y_axes when the key is missing (the error the spec names
  MissingAxisConfig);
* keyError: the KeyError raised by a dataframe column lookup;
* attributeError: the AttributeError raised when a method of the named
  attribute does not exist on the object;
* typeError: the TypeError raised by a call with an unexpected keyword
  argument;
* indexError: the IndexError raised by an out-of-range list index. -/
inductive PyErr where
  | columnCoercion (column : String)
  | missingAxisConfig (key : String)
  | keyError (key : String)
  | attributeError (missing : String)
  | typeError (message : String)
  | indexError
  deriving DecidableEq

/-- Cells of a dataframe column: either an already numeric value or a raw
string as read from a CSV or spreadsheet. -/
inductive Val where
  | num (q : ℚ)
  | str (s : String)
  deriving DecidableEq

/-- Digit-list value used by the decimal parser below. -/
def digitsVal (l : List Char) : Option Nat :=
  if l.isEmpty then none
  else if l.all Char.isDigit then
    some (l.foldl (fun acc c => acc * 10 + (c.toNat - 48)) 0)
  else none

/-- Unsigned decimal numeral, an integer part optionally followed by a dot
and a fractional part. -/
def parseUnsignedFloat (l : List Char) : Option ℚ :=
  let w := l.takeWhile (fun c => c ≠ '.')
  let rest := l.dropWhile (fun c => c ≠ '.')
  match rest with
  | [] => (digitsVal w).map (fun n => (n : ℚ))
  | _ :: f =>
    match digitsVal w, digitsVal f with
    | some wn, some fn => some ((wn : ℚ) + (fn : ℚ) / ((10 : ℚ) ^ f.length))
    | _, _ => none

/-- Models Python float(s) on a string: a signed decimal numeral parses to
its rational value, anything else raises (returns none). -/
def parseFloat (s : String) : Option ℚ :=
  match s.data with
  | '-' :: rest => (parseUnsignedFloat rest).map (fun q => -q)
  | l => parseUnsignedFloat l

/-- Models Python float(v) on a dataframe cell. -/
def pyFloat (v : Val) : Option ℚ :=
  match v with
  | Val.num q => some q
  | Val.str s => parseFloat s

/-- A dataframe is a table of named columns, looked up by column name. -/
abbrev DataFrame := List (String × List Val)

/-- Column access self.df[c]; a missing column raises KeyError. -/
def dfGet (df : DataFrame) (c : String) : Except PyErr (List Val) :=
  match df.lookup c with
  | some col => Except.ok col
  | none => Except.error (PyErr.keyError c)

/-- The list comprehension [float(v) for v in column]: coerces every entry
of the named column, failing on the first non-numeric entry. -/
def coerceVals (name : String) : List Val → Except PyErr (List ℚ)
  | [] => Except.ok []
  | v :: rest =>
    match pyFloat v with
    | some q => do
      let qs ← coerceVals name rest
      Except.ok (q :: qs)
    | none => Except.error (PyErr.columnCoercion name)

/-- True when the named column exists and holds at least one entry that
float() cannot coerce. -/
def hasNonNumeric (df : DataFrame) (c : String) : Bool :=
  match df.lookup c with
  | some col => col.any (fun v => (pyFloat v).isNone)
  | none => false

/-- palette(n) with the default theme, as used by the trace builders; a
failed index raises IndexError. -/
def paletteE (n : Int) : Except PyErr String :=
  match palette n PALETTE with
  | some c => Except.ok c
  | none => Except.error PyErr.indexError

/-- The parameter names of the palette function in chart_layout.py:
palette(n=1, theme=PALETTE). -/
def paletteParamNames : List String := ["n", "theme"]

/-- Models the call palette(as_list=True) made by the pie method: palette
declares only the parameters listed in paletteParamNames, so Python
raises a TypeError for the unexpected keyword.  The then-branch is
modelled from the spec (return the entire theme as a list); it is
unreachable for the source as written. -/
def paletteAsListCall : Except PyErr (List String) :=
  if "as_list" ∈ paletteParamNames then Except.ok PALETTE
  else Except.error (PyErr.typeError "palette got an unexpected keyword argument as_list")

/-- Python str/list union used for the y, values, bars and lines
parameters of the chart methods. -/
inductive PyStrList where
  | one (s : String)
  | many (l : List String)
  deriving DecidableEq

/-- The normalization y if isinstance(y, list) else [y]. -/
def PyStrList.toList : PyStrList → List String
  | PyStrList.one s => [s]
  | PyStrList.many l => l

/-- Models column_name.replace applied to the single-character pattern
and replacement of _format_labels: every occurrence of an underscore is
replaced by a space. -/
def replaceUnderscores (s : String) : String :=
  ⟨s.data.map (fun c => if c = '_' then ' ' else c)⟩

/-- Python list head access l[0]; empty list raises IndexError. -/
def headE {α : Type} (l : List α) : Except PyErr α :=
  match l with
  | [] => Except.error PyErr.indexError
  | a :: _ => Except.ok a

/-- The _format_labels method of charts.py.  It receives whatever the
call site passes as column_name; the dist method passes its raw values
argument, which can be a list, in which case the .replace call raises
AttributeError. -/
def format_labels (column_name : PyStrList) (label : Option String) : Except PyErr String :=
  match label with
  | none =>
    match column_name with
    | PyStrList.one s => Except.ok (replaceUnderscores s)
    | PyStrList.many _ => Except.error (PyErr.attributeError "replace")
  | some l => Except.ok l

/-! ## chart_layout.py: the Layout class -/

/-- The state of a Layout instance: the four labels stored by
Layout.__init__. -/
structure Layout where
  title : Option String
  xlabel : String
  ylabel : String
  y2label : Option String
  deriving DecidableEq

/-- One annotation dict as built by the Layout class: a manually placed
text label in fractional paper coordinates. -/
structure Annot where
  x : ℝ
  y : ℝ
  font_size : ℝ
  font_color : String
  xref : String
  xanchor : String
  yref : String
  yanchor : String
  text : Option String
  showarrow : Bool

/-- Caller-supplied per-axis overrides, the values of the axis_args
dicts built by the chart methods (dict(range=...), plus the overlaying
and side keys that _format_to_y2 may add). -/
structure AxisOverride where
  range : Option (List ℚ) := none
  overlaying : Option String := none
  side : Option String := none
  deriving DecidableEq

/-- The axis style dict built by _axis_no_titles: fixed grid, tick and
line styling merged with the caller overrides. -/
structure AxisLayout where
  tickfont_size : ℝ
  ticklen : Nat
  tickwidth : Nat
  showgrid : Bool
  gridcolor : String
  gridwidth : Nat
  zeroline : Bool
  linewidth : Nat
  linecolor : String
  range : Option (List ℚ) := none
  overlaying : Option String := none
  side : Option String := none

/-- The legend dict built by _legend_grey. -/
structure Legend where
  bgcolor : String
  bordercolor : String
  borderwidth : Nat
  font_size : ℝ
  font_color : String
  xanchor : String
  yanchor : String
  x : ℝ
  y : ℝ

/-- The canvas-level part of the layout built by _canvas_white. -/
structure Canvas where
  width : ℝ
  height : ℝ
  font_family : String
  hover_font_family : String
  plot_bgcolor : String
  paper_bgcolor : String
  margin : Margin
  annots : Annot × Annot × Annot

/-- A complete go.Layout scene description: canvas plus axes plus
legend. -/
structure GoLayout where
  xaxis : AxisLayout
  yaxis : AxisLayout
  yaxis2 : Option AxisLayout := none
  legend : Legend
  canvas : Canvas

/-- The _annotations method: the title, ylabel and xlabel placements, in
the order the source returns them.  All positions are fractions of the
usable canvas size (canvas minus margins). -/
noncomputable def Layout.annotations (self : Layout) : Annot × Annot × Annot :=
  let y_tilt : ℝ := 0
  let vertical_space : ℝ := HEIGHT - MARGIN.t - MARGIN.b
  let horizontal_space : ℝ := WIDTH - MARGIN.l - MARGIN.r
  let title : Annot :=
    { x := -(MARGIN.l - 20) / horizontal_space
      y := 1 + (MARGIN.t - 10) / vertical_space
      font_size := TITLE_SIZE
      font_color := DARK_TEXT
      xref := "paper", xanchor := "left"
      yref := "paper", yanchor := "top"
      text := self.title
      showarrow := false }
  let ylabel : Annot :=
    { x := -(MARGIN.l - 20) / horizontal_space
      y := 1 + (MARGIN.t - 20 - TITLE_SIZE - y_tilt) / vertical_space
      font_size := FONT_SIZE
      font_color := LIGHT_TEXT
      xref := "paper", xanchor := "left"
      yref := "paper", yanchor := "top"
      text := some self.ylabel
      showarrow := false }
  let xlabel : Annot :=
    { x := 0.5
      y := -(MARGIN.b - 10) / vertical_space
      font_size := FONT_SIZE
      font_color := LIGHT_TEXT
      xref := "paper", xanchor := "center"
      yref := "paper", yanchor := "bottom"
      text := some self.xlabel
      showarrow := false }
  (title, ylabel, xlabel)

/-- The _canvas_white method. -/
noncomputable def Layout.canvas_white (self : Layout) : Canvas :=
  { width := WIDTH
    height := HEIGHT
    font_family := FONT_FAMILY
    hover_font_family := FONT_FAMILY
    plot_bgcolor := WHITE
    paper_bgcolor := WHITE
    margin := MARGIN
    annots := self.annotations }

/-- The _axis_no_titles method: the fixed axis style, updated with the
caller overrides when given (overrides win on key conflicts). -/
noncomputable def axis_no_titles (axis_args : Option AxisOverride) : AxisLayout :=
  let axis_layout : AxisLayout :=
    { tickfont_size := FONT_SIZE
      ticklen := 5
      tickwidth := 2
      showgrid := true
      gridcolor := WHITE
      gridwidth := 2
      zeroline := false
      linewidth := 6
      linecolor := GREY }
  match axis_args with
  | none => axis_layout
  | some o =>
    { axis_layout with range := o.range, overlaying := o.overlaying, side := o.side }

/-- The _legend_grey method. -/
noncomputable def legend_grey : Legend :=
  { bgcolor := LIGHT_GREY
    bordercolor := LIGHT_GREY
    borderwidth := 1
    font_size := FONT_SIZE
    font_color := DARK_TEXT
    xanchor := "left"
    yanchor := "bottom"
    x := 1.08
    y := 0 }

/-- The _format_to_y2 method: mark an axis as a right-side overlay of the
primary y-axis when those keys are not already set. -/
def format_to_y2 (axis : AxisOverride) : AxisOverride :=
  let y2_args := axis
  let y2_args :=
    match y2_args.overlaying with
    | none => { y2_args with overlaying := some "y" }
    | some _ => y2_args
  match y2_args.side with
  | none => { y2_args with side := some "right" }
  | some _ => y2_args

/-- The one_axis_layout method: canvas plus one x-axis, one y-axis and the
legend; the axis_setting dict may supply overrides under the x and y
keys. -/
noncomputable def Layout.one_axis_layout (self : Layout)
    (axis_setting : Option (List (String × AxisOverride))) : GoLayout :=
  let canvas := self.canvas_white
  let x_axis :=
    match axis_setting with
    | none => none
    | some s => s.lookup "x"
  let y_axis :=
    match axis_setting with
    | none => none
    | some s => s.lookup "y"
  { xaxis := axis_no_titles x_axis
    yaxis := axis_no_titles y_axis
    legend := legend_grey
    canvas := canvas }

/-- The two_y_axes method.  It builds the canvas, formats axis_args["y2"]
for the secondary axis (a missing "y2" key raises the KeyError the spec
names MissingAxisConfig), and then evaluates
self._white_axis_no_titles, an attribute that does not exist on Layout
(the method is present only as commented-out code), so the AttributeError
is raised before any layout can be returned.  The barmode keyword is
accepted through kwargs but never used by the source body. -/
noncomputable def Layout.two_y_axes (self : Layout)
    (axis_args : List (String × AxisOverride)) (_barmode : Option String) :
    Except PyErr GoLayout := do
  let _canvas := self.canvas_white
  let y2 ← match axis_args.lookup "y2" with
    | some a => Except.ok a
    | none => Except.error (PyErr.missingAxisConfig "y2")
  let _y2_args := format_to_y2 y2
  Except.error (PyErr.attributeError "_white_axis_no_titles")

/-- Models the attribute lookup style.default performed by the bar, dist,
line, scatter and pie methods of charts.py: the Layout class of
chart_layout.py defines no method named default (its single-axis builder
is one_axis_layout), so every such call raises AttributeError before the
arguments matter. -/
def Layout.default (_self : Layout)
    (_axis_args : List (String × AxisOverride)) (_barmode : Option String) :
    Except PyErr GoLayout :=
  Except.error (PyErr.attributeError "default")

/-! ## charts.py: traces and the Visualize chart methods -/

/-- The kind of renderable series a trace describes. -/
inductive TraceKind where
  | bar
  | scatter
  | histogram
  | pie
  deriving DecidableEq

/-- One trace spec as handed to the plotting library; optional fields are
none when the corresponding go.* keyword is absent at the call site. -/
structure Trace where
  kind : TraceKind
  x : List Val := []
  y : List Val := []
  name : String := ""
  color : Option String := none
  orientation : Option String := none
  mode : Option String := none
  opacity : Option ℚ := none
  histnorm : Option String := none
  cumulative_enabled : Option Bool := none
  yaxis : Option String := none
  hole : Option ℚ := none
  colors : Option (List String) := none
  labels : List Val := []
  values : List ℚ := []
  deriving DecidableEq

/-- The figure handed to the external renderer: the trace list plus the
layout. -/
structure Figure where
  data : List Trace
  layout : GoLayout

/-- The observable outcome of a chart method that completes: the figure
passed to py.offline.iplot plus the value the Python method returns
(some true for the methods with a return statement, none for the
methods that fall off the end). -/
structure ChartOutcome where
  figure : Figure
  result : Option Bool

/-- The _make_vbar_plot method: coerce the y column, then build a
go.Bar trace colored with palette(n). -/
def make_vbar_plot (df : DataFrame) (x y : String) (n : Int) : Except PyErr Trace := do
  let ycol ← dfGet df y
  let y_values ← coerceVals y ycol
  let xcol ← dfGet df x
  let color ← paletteE n
  Except.ok
    { kind := TraceKind.bar
      x := xcol
      y := y_values.map Val.num
      name := y
      color := some color }

/-- The _make_hbar_plot method: same as the vertical variant with the x
and y sequences swapped and orientation "h". -/
def make_hbar_plot (df : DataFrame) (x y : String) (n : Int) : Except PyErr Trace := do
  let ycol ← dfGet df y
  let y_values ← coerceVals y ycol
  let xcol ← dfGet df x
  let color ← paletteE n
  Except.ok
    { kind := TraceKind.bar
      x := y_values.map Val.num
      y := xcol
      name := y
      color := some color
      orientation := some "h" }

/-- The _make_dist_plot method: one go.Histogram trace with the overlay,
probability and cumulative flags. -/
def make_dist_plot (df : DataFrame) (column_name : String) (n : Int)
    (overlay prob cumsum : Bool) : Except PyErr Trace := do
  let opacity : Option ℚ := if overlay then some (1 / 2) else none
  let histogram_mode : Option String := if prob then some "probability" else none
  let col ← dfGet df column_name
  let values ← coerceVals column_name col
  let color ← paletteE n
  Except.ok
    { kind := TraceKind.histogram
      x := values.map Val.num
      opacity := opacity
      name := column_name
      color := some color
      histnorm := histogram_mode
      cumulative_enabled := some cumsum }

/-- The _make_scatter_plot method: one go.Scatter trace in the given
mode. -/
def make_scatter_plot (df : DataFrame) (x y : String) (n : Int) (mode : String) :
    Except PyErr Trace := do
  let ycol ← dfGet df y
  let y_values ← coerceVals y ycol
  let xcol ← dfGet df x
  let color ← paletteE n
  Except.ok
    { kind := TraceKind.scatter
      x := xcol
      y := y_values.map Val.num
      name := y
      mode := some mode
      color := some color }

/-- The trace-building loop of the bar method: for n, value_name in
enumerate(y), one bar trace per value column, n counting from 0. -/
def buildBars (df : DataFrame) (x : String) (horizontal : Bool) (n : Nat)
    (ys : List String) : Except PyErr (List Trace) :=
  match ys with
  | [] => Except.ok []
  | name :: rest => do
    let t ←
      if horizontal then make_hbar_plot df x name n
      else make_vbar_plot df x name n
    let ts ← buildBars df x horizontal (n + 1) rest
    Except.ok (t :: ts)

/-- The line-trace loop of the combo method: for n, line_name in
enumerate(lines), a go.Scatter on the secondary axis colored with
palette(n + 1). -/
def buildLines (df : DataFrame) (x : String) (n : Nat) (ls : List String) :
    Except PyErr (List Trace) :=
  match ls with
  | [] => Except.ok []
  | name :: rest => do
    let xcol ← dfGet df x
    let ycol ← dfGet df name
    let y_values ← coerceVals name ycol
    let color ← paletteE ((n : Int) + 1)
    let t : Trace :=
      { kind := TraceKind.scatter
        x := xcol
        y := y_values.map Val.num
        name := name
        mode := some "lines+markers"
        color := some color
        yaxis := some "y2" }
    let ts ← buildLines df x (n + 1) rest
    Except.ok (t :: ts)

/-- The trace-building loop of the dist method. -/
def buildDists (df : DataFrame) (overlay prob cumsum : Bool) (n : Nat)
    (ys : List String) : Except PyErr (List Trace) :=
  match ys with
  | [] => Except.ok []
  | name :: rest => do
    let t ← make_dist_plot df name n overlay prob cumsum
    let ts ← buildDists df overlay prob cumsum (n + 1) rest
    Except.ok (t :: ts)

/-- The trace-building loop shared by the line and scatter methods. -/
def buildScatters (df : DataFrame) (x : String) (mode : String) (n : Nat)
    (ys : List String) : Except PyErr (List Trace) :=
  match ys with
  | [] => Except.ok []
  | name :: rest => do
    let t ← make_scatter_plot df x name n mode
    let ts ← buildScatters df x mode (n + 1) rest
    Except.ok (t :: ts)

/-- The full trace list of a combo call: the bar loop followed by the
line loop, appended into the shared data list. -/
def comboData (df : DataFrame) (x : String) (bars lines : List String) :
    Except PyErr (List Trace) := do
  let bs ← buildBars df x false 0 bars
  let ls ← buildLines df x 0 lines
  Except.ok (bs ++ ls)

namespace Visualize

/-- The bar method of the Visualize class.  The dataframe stands for
self.df. -/
def bar (df : DataFrame) (x : String) (y : PyStrList) (title : String)
    (stack horizontal : Bool) (x_range y_range : Option (List ℚ))
    (xlabel ylabel : Option String) : Except PyErr ChartOutcome := do
  let ys := y.toList
  let data ← buildBars df x horizontal 0 ys
  let xl ← format_labels (PyStrList.one x) xlabel
  let y0 ← headE ys
  let yl ← format_labels (PyStrList.one y0) ylabel
  let style : Layout := { title := some title, xlabel := xl, ylabel := yl, y2label := none }
  let layout ← style.default
    [("x", { range := x_range }), ("y", { range := y_range })]
    (if stack then some "stack" else none)
  Except.ok { figure := { data := data, layout := layout }, result := some true }

/-- The combo method of the Visualize class. -/
noncomputable def combo (df : DataFrame) (x : String) (bars lines : PyStrList)
    (title : String) (x_range bar_range line_range : Option (List ℚ))
    (xlabel bar_label line_label : Option String) (stack : Bool) :
    Except PyErr ChartOutcome := do
  let bs := bars.toList
  let ls := lines.toList
  let data ← comboData df x bs ls
  let xl ← format_labels (PyStrList.one x) xlabel
  let b0 ← headE bs
  let yl ← format_labels (PyStrList.one b0) bar_label
  let l0 ← headE ls
  let y2l ← format_labels (PyStrList.one l0) line_label
  let style : Layout := { title := some title, xlabel := xl, ylabel := yl, y2label := some y2l }
  let layout ← style.two_y_axes
    [("x", { range := x_range }), ("y", { range := bar_range }), ("y2", { range := line_range })]
    (if stack then some "stack" else none)
  Except.ok { figure := { data := data, layout := layout }, result := some true }

/-- The annotations dict built by the dist method and passed to
Layout(**annotations): the xlabel comes from _format_labels applied to
the raw values argument, and the ylabel is "Probability (%)" when prob
is set and "Count" otherwise. -/
def distAnnots (values : PyStrList) (title : String) (label : Option String)
    (prob : Bool) : Except PyErr Layout := do
  let xl ← format_labels values label
  Except.ok
    { title := some title
      xlabel := xl
      ylabel := if prob then "Probability (%)" else "Count"
      y2label := none }

/-- The dist method of the Visualize class. -/
def dist (df : DataFrame) (values : PyStrList) (title : String)
    (x_range y_range : Option (List ℚ)) (label : Option String)
    (overlay prob cumsum : Bool) : Except PyErr ChartOutcome := do
  let ys := values.toList
  let data ← buildDists df overlay prob cumsum 0 ys
  let style ← distAnnots values title label prob
  let layout ← style.default
    [("x", { range := x_range }), ("y", { range := y_range })]
    (if overlay then some "overlay" else none)
  Except.ok { figure := { data := data, layout := layout }, result := some true }

/-- The line method of the Visualize class; it has no return statement,
so a completed call would return None. -/
def line (df : DataFrame) (x : String) (y : PyStrList) (title : Option String)
    (x_range y_range : Option (List ℚ)) (xlabel ylabel : Option String) :
    Except PyErr ChartOutcome := do
  let ys := y.toList
  let data ← buildScatters df x "lines+markers" 0 ys
  let xl ← format_labels (PyStrList.one x) xlabel
  let y0 ← headE ys
  let yl ← format_labels (PyStrList.one y0) ylabel
  let style : Layout := { title := title, xlabel := xl, ylabel := yl, y2label := none }
  let layout ← style.default
    [("x", { range := x_range }), ("y", { range := y_range })] none
  Except.ok { figure := { data := data, layout := layout }, result := none }

/-- The scatter method of the Visualize class; like line but in markers
mode, and also without a return statement. -/
def scatter (df : DataFrame) (x : String) (y : PyStrList) (title : Option String)
    (x_range y_range : Option (List ℚ)) (xlabel ylabel : Option String) :
    Except PyErr ChartOutcome := do
  let ys := y.toList
  let data ← buildScatters df x "markers" 0 ys
  let xl ← format_labels (PyStrList.one x) xlabel
  let y0 ← headE ys
  let yl ← format_labels (PyStrList.one y0) ylabel
  let style : Layout := { title := title, xlabel := xl, ylabel := yl, y2label := none }
  let layout ← style.default
    [("x", { range := x_range }), ("y", { range := y_range })] none
  Except.ok { figure := { data := data, layout := layout }, result := none }

/-- The pie method of the Visualize class.  The go.Pie construction
evaluates palette(as_list=True), which raises TypeError because palette
has no such parameter; the ylabel would afterwards be built from y[0],
the first character of the y column name. -/
def pie (df : DataFrame) (x y : String) (title xlabel ylabel : Option String) :
    Except PyErr ChartOutcome := do
  let labels ← dfGet df x
  let ycol ← dfGet df y
  let values ← coerceVals y ycol
  let colors ← paletteAsListCall
  let ptrace : Trace :=
    { kind := TraceKind.pie
      labels := labels
      values := values
      name := x
      hole := some (2 / 5)
      colors := some colors }
  let xl ← format_labels (PyStrList.one x) xlabel
  let y0 ← headE y.data
  let yl ← format_labels (PyStrList.one ⟨[y0]⟩) ylabel
  let style : Layout := { title := title, xlabel := xl, ylabel := yl, y2label := none }
  let layout ← style.default [] none
  Except.ok { figure := { data := [ptrace], layout := layout }, result := none }

end Visualize

/-- True exactly on a successful Except result, i.e. when the Python call
completed without raising. -/
def isOkE {ε α : Type} (e : Except ε α) : Bool :=
  match e with
  | Except.ok _ => true
  | Except.error _ => false

/-- True exactly on the coercion failure of a value column. -/
def PyErr.isCoercionErr : PyErr → Bool
  | PyErr.columnCoercion _ => true
  | _ => false

/-- True exactly when the result is the coercion failure of a value
column. -/
def isCoercionE {α : Type} (e : Except PyErr α) : Bool :=
  match e with
  | Except.error err => err.isCoercionErr
  | Except.ok _ => false

/-- The end-to-end scenario dataset of the spec: month=["Jan","Feb"],
sales=["10","20"]. -/
def demoDf : DataFrame :=
  [("month", [Val.str "Jan", Val.str "Feb"]), ("sales", [Val.str "10", Val.str "20"])]

/-- A small dataset with one category column and three numeric value
columns, for the combo color scenario bars=["a"], lines=["b","c"]. -/
def comboDf : DataFrame :=
  [("x", [Val.str "p"]), ("a", [Val.num 1]), ("b", [Val.num 2]), ("c", [Val.num 3])]

/-- A dataset whose value column holds a non-numeric string. -/
def badDf : DataFrame :=
  [("month", [Val.str "Jan", Val.str "Feb"]), ("sales", [Val.str "10", Val.str "oops"])]

/-- The bar trace a combo call on comboDf builds for the bar column
"a". -/
def comboBarTrace : Trace :=
  { kind := TraceKind.bar, x := [Val.str "p"], y := [Val.num 1], name := "a",
    color := some "#bab0ac" }

/-- The line trace a combo call on comboDf builds for the line column
"b". -/
def comboLineTraceB : Trace :=
  { kind := TraceKind.scatter, x := [Val.str "p"], y := [Val.num 2], name := "b",
    mode := some "lines+markers", color := some "#4e79a7", yaxis := some "y2" }

/-- The line trace a combo call on comboDf builds for the line column
"c". -/
def comboLineTraceC : Trace :=
  { kind := TraceKind.scatter, x := [Val.str "p"], y := [Val.num 3], name := "c",
    mode := some "lines+markers", color := some "#f28e2b", yaxis := some "y2" }

/-! ## Helper lemmas about the Except monad -/

@[simp]
theorem ok_bind {ε α β : Type} (a : α) (f : α → Except ε β) :
    (Except.ok a >>= f) = f a := rfl

@[simp]
theorem err_bind {ε α β : Type} (e : ε) (f : α → Except ε β) :
    ((Except.error e : Except ε α) >>= f) = Except.error e := rfl

theorem bind_not_ok_tail {ε α β : Type} (e : Except ε α) (f : α → Except ε β)
    (h : ∀ a, isOkE (f a) = false) : isOkE (e >>= f) = false := by
  cases e with
  | error err => rfl
  | ok a => exact h a

theorem bind_not_ok_head {ε α β : Type} (e : Except ε α) (f : α → Except ε β)
    (h : isOkE e = false) : isOkE (e >>= f) = false := by
  cases e with
  | error err => rfl
  | ok a => simp [isOkE] at h

theorem ok_of_bind {ε α β : Type} {e : Except ε α} {f : α → Except ε β} {b : β}
    (h : (e >>= f) = Except.ok b) : ∃ a, e = Except.ok a ∧ f a = Except.ok b := by
  cases e with
  | error err => simp at h
  | ok a => exact ⟨a, rfl, h⟩

theorem two_y_axes_isOkE (L : Layout) (args : List (String × AxisOverride))
    (bm : Option String) : isOkE (L.two_y_axes args bm) = false := by
  unfold Layout.two_y_axes
  cases h : args.lookup "y2" <;> simp [h, isOkE]

theorem paletteE_ok {n : Int} {c : String} (h : paletteE n = Except.ok c) :
    palette n PALETTE = some c := by
  unfold paletteE at h
  split at h
  · injection h with h2
    subst h2
    assumption
  · simp at h

theorem make_vbar_color {df : DataFrame} {x y : String} {n : Int} {t : Trace}
    (h : make_vbar_plot df x y n = Except.ok t) : t.color = palette n PALETTE := by
  unfold make_vbar_plot at h
  obtain ⟨ycol, h1, h⟩ := ok_of_bind h
  obtain ⟨qs, h2, h⟩ := ok_of_bind h
  obtain ⟨xcol, h3, h⟩ := ok_of_bind h
  obtain ⟨color, h4, h⟩ := ok_of_bind h
  injection h with h5
  subst h5
  exact (paletteE_ok h4).symm

theorem buildBars_spec (df : DataFrame) (x : String) :
    ∀ (ys : List String) (n : Nat) (ts : List Trace),
      buildBars df x false n ys = Except.ok ts →
      ts.length = ys.length ∧
      ∀ (k : Nat) (hk : k < ts.length),
        (ts.get ⟨k, hk⟩).color = palette ((n + k : Nat) : Int) PALETTE := by
  intro ys
  induction ys with
  | nil =>
    intro n ts h
    simp only [buildBars] at h
    injection h with h2
    subst h2
    exact ⟨rfl, fun k hk => absurd hk (by simp)⟩
  | cons name rest ih =>
    intro n ts h
    simp only [buildBars, Bool.false_eq_true, if_neg, ite_false] at h
    obtain ⟨t, ht, h⟩ := ok_of_bind h
    obtain ⟨ts', hts', h⟩ := ok_of_bind h
    injection h with h2
    subst h2
    obtain ⟨ihlen, ihcol⟩ := ih (n + 1) ts' hts'
    refine ⟨by simp [ihlen], ?_⟩
    intro k hk
    cases k with
    | zero =>
      have := make_vbar_color ht
      simpa using this
    | succ k' =>
      have hk' : k' < ts'.length := by
        simp only [List.length_cons] at hk
        omega
      have hcol := ihcol k' hk'
      have harith : (n + 1 + k' : Nat) = (n + (k' + 1) : Nat) := by omega
      rw [harith] at hcol
      simpa using hcol

theorem buildLines_spec (df : DataFrame) (x : String) :
    ∀ (ls : List String) (n : Nat) (ts : List Trace),
      buildLines df x n ls = Except.ok ts →
      ts.length = ls.length ∧
      ∀ (k : Nat) (hk : k < ts.length),
        (ts.get ⟨k, hk⟩).color = palette (((n + k : Nat) : Int) + 1) PALETTE := by
  intro ls
  induction ls with
  | nil =>
    intro n ts h
    simp only [buildLines] at h
    injection h with h2
    subst h2
    exact ⟨rfl, fun k hk => absurd hk (by simp)⟩
  | cons name rest ih =>
    intro n ts h
    simp only [buildLines] at h
    obtain ⟨xcol, h1, h⟩ := ok_of_bind h
    obtain ⟨ycol, h2, h⟩ := ok_of_bind h
    obtain ⟨qs, h3, h⟩ := ok_of_bind h
    obtain ⟨color, h4, h⟩ := ok_of_bind h
    obtain ⟨ts', hts', h⟩ := ok_of_bind h
    injection h with h5
    subst h5
    obtain ⟨ihlen, ihcol⟩ := ih (n + 1) ts' hts'
    refine ⟨by simp [ihlen], ?_⟩
    intro k hk
    cases k with
    | zero =>
      have := paletteE_ok h4
      simp only [List.get]
      rw [← this]
      simp
    | succ k' =>
      have hk' : k' < ts'.length := by
        simp only [List.length_cons] at hk
        omega
      have hcol := ihcol k' hk'
      have harith : (n + 1 + k' : Nat) = (n + (k' + 1) : Nat) := by omega
      rw [harith] at hcol
      simpa using hcol

/-! ## Claim theorems -/

/-- C1: palette cycling law.  For every 1-based index i in [1, 2*length]
with i > length (length = 10 for the default theme), palette(i) equals
palette(i - length), and both agree with clean cyclic modulo indexing
into the theme over that range. -/
theorem palette_cycles (i : Int) (h1 : 10 < i) (h2 : i ≤ 20) :
    palette i PALETTE = palette (i - 10) PALETTE
    ∧ palette i PALETTE = PALETTE.get? (((i - 1) % 10).toNat) := by
  interval_cases i <;> exact ⟨by decide, by decide⟩

/-- Witness for palette_cycles at the concrete index 17. -/
theorem palette_cycles_witness :
    palette 17 PALETTE = palette (17 - 10) PALETTE
    ∧ palette 17 PALETTE = PALETTE.get? ((((17 : Int) - 1) % 10).toNat) :=
  palette_cycles 17 (by decide) (by decide)

/-- C5: the dual-axis layout operation two_y_axes requires its
axis-overrides argument to contain the "y2" key; whenever "y2" is absent
it fails with the MissingAxisConfig error (the modelled KeyError on
axis_args["y2"]) instead of producing a layout. -/
theorem two_y_axes_requires_y2 (L : Layout) (args : List (String × AxisOverride))
    (bm : Option String) (h : args.lookup "y2" = none) :
    L.two_y_axes args bm = Except.error (PyErr.missingAxisConfig "y2") := by
  unfold Layout.two_y_axes
  rw [h]
  rfl

/-- Witness for two_y_axes_requires_y2 on a concrete overrides dict that
has only the x and y keys. -/
theorem two_y_axes_requires_y2_witness :
    Layout.two_y_axes { title := some "t", xlabel := "x", ylabel := "y", y2label := none }
      [("x", {}), ("y", {})] none = Except.error (PyErr.missingAxisConfig "y2") :=
  two_y_axes_requires_y2 _ _ _ (by rfl)

/-- C10: even with the "x", "y" and "y2" keys all present, two_y_axes
never returns a layout, because it evaluates self._white_axis_no_titles,
a method that exists only as commented-out code; consequently every
combo chart call fails before reaching the renderer. -/
theorem combo_never_renders :
    (∀ (L : Layout) (args : List (String × AxisOverride)) (bm : Option String),
      isOkE (L.two_y_axes args bm) = false)
    ∧ (∀ (df : DataFrame) (x : String) (bars lines : PyStrList) (title : String)
        (xr br lr : Option (List ℚ)) (xl bl ll : Option String) (st : Bool),
      isOkE (Visualize.combo df x bars lines title xr br lr xl bl ll st) = false)
    ∧ Layout.two_y_axes { title := some "t", xlabel := "x", ylabel := "y", y2label := none }
        [("x", {}), ("y", {}), ("y2", {})] none =
      Except.error (PyErr.attributeError "_white_axis_no_titles") := by
  refine ⟨two_y_axes_isOkE, ?_, by rfl⟩
  intro df x bars lines title xr br lr xl bl ll st
  simp only [Visualize.combo]
  apply bind_not_ok_tail; intro _
  apply bind_not_ok_tail; intro _
  apply bind_not_ok_tail; intro _
  apply bind_not_ok_tail; intro _
  apply bind_not_ok_tail; intro _
  apply bind_not_ok_tail; intro _
  exact bind_not_ok_head _ _ (two_y_axes_isOkE _ _ _)

/-- C3: contrary to the claim that every chart method hands its traces
and layout to the renderer and returns True, none of the six chart
methods ever completes: bar, dist, line and scatter call the undefined
Layout method default, combo reaches the undefined _white_axis_no_titles,
and pie calls palette with the undefined as_list keyword.  On the spec
scenario dataset, bar fails with the AttributeError for default. -/
theorem charts_crash_before_render :
    (∀ (df : DataFrame) (x : String) (y : PyStrList) (title : String) (st hz : Bool)
        (xr yr : Option (List ℚ)) (xl yl : Option String),
      isOkE (Visualize.bar df x y title st hz xr yr xl yl) = false)
    ∧ (∀ (df : DataFrame) (x : String) (bars lines : PyStrList) (title : String)
        (xr br lr : Option (List ℚ)) (xl bl ll : Option String) (st : Bool),
      isOkE (Visualize.combo df x bars lines title xr br lr xl bl ll st) = false)
    ∧ (∀ (df : DataFrame) (values : PyStrList) (title : String)
        (xr yr : Option (List ℚ)) (label : Option String) (ov pr cs : Bool),
      isOkE (Visualize.dist df values title xr yr label ov pr cs) = false)
    ∧ (∀ (df : DataFrame) (x : String) (y : PyStrList) (title : Option String)
        (xr yr : Option (List ℚ)) (xl yl : Option String),
      isOkE (Visualize.line df x y title xr yr xl yl) = false)
    ∧ (∀ (df : DataFrame) (x : String) (y : PyStrList) (title : Option String)
        (xr yr : Option (List ℚ)) (xl yl : Option String),
      isOkE (Visualize.scatter df x y title xr yr xl yl) = false)
    ∧ (∀ (df : DataFrame) (x y : String) (title xl yl : Option String),
      isOkE (Visualize.pie df x y title xl yl) = false)
    ∧ Visualize.bar demoDf "month" (PyStrList.one "sales") "Sales" false false
        none none none none = Except.error (PyErr.attributeError "default") := by
  refine ⟨?_, ?_, ?_, ?_, ?_, ?_, by rfl⟩
  · intro df x y title st hz xr yr xl yl
    simp only [Visualize.bar]
    apply bind_not_ok_tail; intro _
    apply bind_not_ok_tail; intro _
    apply bind_not_ok_tail; intro _
    apply bind_not_ok_tail; intro _
    rfl
  · intro df x bars lines title xr br lr xl bl ll st
    simp only [Visualize.combo]
    apply bind_not_ok_tail; intro _
    apply bind_not_ok_tail; intro _
    apply bind_not_ok_tail; intro _
    apply bind_not_ok_tail; intro _
    apply bind_not_ok_tail; intro _
    apply bind_not_ok_tail; intro _
    exact bind_not_ok_head _ _ (two_y_axes_isOkE _ _ _)
  · intro df values title xr yr label ov pr cs
    simp only [Visualize.dist]
    apply bind_not_ok_tail; intro _
    apply bind_not_ok_tail; intro _
    rfl
  · intro df x y title xr yr xl yl
    simp only [Visualize.line]
    apply bind_not_ok_tail; intro _
    apply bind_not_ok_tail; intro _
    apply bind_not_ok_tail; intro _
    apply bind_not_ok_tail; intro _
    rfl
  · intro df x y title xr yr xl yl
    simp only [Visualize.scatter]
    apply bind_not_ok_tail; intro _
    apply bind_not_ok_tail; intro _
    apply bind_not_ok_tail; intro _
    apply bind_not_ok_tail; intro _
    rfl
  · intro df x y title xl yl
    simp only [Visualize.pie]
    apply bind_not_ok_tail; intro _
    apply bind_not_ok_tail; intro _
    apply bind_not_ok_tail; intro _
    rfl

/-- C7: contrary to the claim that pie hands the full default palette to
the renderer as its slice colors, the call palette(as_list=True) passes a
keyword that palette does not define, so every pie call raises TypeError
and nothing is handed to the renderer; at the concrete scenario input the
error is exhibited explicitly. -/
theorem pie_always_fails :
    (∀ (df : DataFrame) (x y : String) (title xl yl : Option String),
      isOkE (Visualize.pie df x y title xl yl) = false)
    ∧ Visualize.pie demoDf "month" "sales" none none none =
      Except.error (PyErr.typeError "palette got an unexpected keyword argument as_list") := by
  refine ⟨?_, by rfl⟩
  intro df x y title xl yl
  simp only [Visualize.pie]
  apply bind_not_ok_tail; intro _
  apply bind_not_ok_tail; intro _
  apply bind_not_ok_tail; intro _
  rfl

/-- C6 counterexample: at a concrete Layout the vertical offset between
the title and ylabel annotations, scaled back to pixels by the usable
vertical height, is not TITLE_SIZE (it is 34, not 24). -/
theorem annots_offset_cex :
    ¬ ((((Layout.mk (some "Sales") "month" "sales" none).annotations).1.y -
        ((Layout.mk (some "Sales") "month" "sales" none).annotations).2.1.y) *
       (HEIGHT - MARGIN.t - MARGIN.b) = TITLE_SIZE) := by
  norm_num [Layout.annotations, HEIGHT, MARGIN, TITLE_SIZE, FONT_SIZE]

/-- C6 amended: for every Layout, the xlabel annotation is horizontally
centered (x = 0.5 with center anchor), and the title annotation sits
above the ylabel annotation by a pixel offset of TITLE_SIZE + 10 (the
title hangs 10 below the top margin edge while the ylabel hangs
20 + TITLE_SIZE below it), not by TITLE_SIZE alone. -/
theorem annots_geometry (L : Layout) :
    (L.annotations).2.2.x = 1 / 2
    ∧ (L.annotations).2.2.xanchor = "center"
    ∧ ((L.annotations).1.y - (L.annotations).2.1.y) * (HEIGHT - MARGIN.t - MARGIN.b) =
      TITLE_SIZE + 10 := by
  refine ⟨?_, ?_, ?_⟩
  · norm_num [Layout.annotations]
  · simp [Layout.annotations]
  · norm_num [Layout.annotations, HEIGHT, MARGIN, TITLE_SIZE, FONT_SIZE]

/-- C2 counterexample: for bars=["a"], lines=["b","c"] on a concrete
dataset, the bar trace is colored with the tenth palette color (Python
palette(0) indexes theme[-1]), not with palette color 1, and the line
traces take palette colors 1 and 2, not 2 and 3, refuting the claimed
1-based position rule. -/
theorem combo_colors_cex :
    (comboData comboDf "x" ["a"] ["b", "c"]).map (fun ts => ts.map Trace.color) =
      Except.ok [some "#bab0ac", some "#4e79a7", some "#f28e2b"]
    ∧ some "#bab0ac" ≠ palette 1 PALETTE
    ∧ some "#4e79a7" ≠ palette 2 PALETTE
    ∧ some "#f28e2b" ≠ palette 3 PALETTE :=
  ⟨by rfl, by decide, by decide, by decide⟩

/-- C2 amended: trace colors follow the 0-based enumerate counter, one
below the claimed 1-based position: the k-th value column (0-based k) of
a bar call gets palette(k), so the first trace gets palette(0), the last
theme color by Python negative indexing; in combo the i-th bar trace
(0-based) gets palette(i) and the j-th line trace (0-based) gets
palette(j + 1). -/
theorem trace_palette_colors
    (df : DataFrame) (x : String) (ys bars lines : List String)
    (k i j : Nat) (ts cs : List Trace)
    (hb : buildBars df x false 0 ys = Except.ok ts) (hk : k < ts.length)
    (hc : comboData df x bars lines = Except.ok cs)
    (hi : i < bars.length) (hic : i < cs.length)
    (hj : j < lines.length) (hjc : bars.length + j < cs.length) :
    (ts.get ⟨k, hk⟩).color = palette (k : Int) PALETTE
    ∧ cs.length = bars.length + lines.length
    ∧ (cs.get ⟨i, hic⟩).color = palette (i : Int) PALETTE
    ∧ (cs.get ⟨bars.length + j, hjc⟩).color = palette ((j : Int) + 1) PALETTE := by
  obtain ⟨hlen, hcol⟩ := buildBars_spec df x ys 0 ts hb
  unfold comboData at hc
  obtain ⟨bs, hbs, hc⟩ := ok_of_bind hc
  obtain ⟨ls, hls, hc⟩ := ok_of_bind hc
  injection hc with hc2
  subst hc2
  obtain ⟨hblen, hbcol⟩ := buildBars_spec df x bars 0 bs hbs
  obtain ⟨hllen, hlcol⟩ := buildLines_spec df x lines 0 ls hls
  refine ⟨?_, ?_, ?_, ?_⟩
  · have := hcol k hk
    simpa using this
  · simp [hblen, hllen]
  · have hib : i < bs.length := by omega
    have h1 : (bs ++ ls).get ⟨i, hic⟩ = bs.get ⟨i, hib⟩ := by
      simp only [List.get_eq_getElem]
      exact List.getElem_append_left hib
    rw [h1]
    have := hbcol i hib
    simpa using this
  · have hjl : j < ls.length := by omega
    have h1 : (bs ++ ls).get ⟨bars.length + j, hjc⟩ = ls.get ⟨j, hjl⟩ := by
      simp only [List.get_eq_getElem]
      rw [List.getElem_append_right (by omega)]
      congr 1
      omega
    rw [h1]
    have := hlcol j hjl
    simpa using this

/-- Witness for trace_palette_colors on the concrete combo scenario
bars=["a"], lines=["b","c"] over comboDf. -/
theorem trace_palette_colors_witness :
    (([comboBarTrace].get ⟨0, by decide⟩).color = palette ((0 : Nat) : Int) PALETTE)
    ∧ ([comboBarTrace, comboLineTraceB, comboLineTraceC].length =
        (["a"] : List String).length + (["b", "c"] : List String).length)
    ∧ (([comboBarTrace, comboLineTraceB, comboLineTraceC].get ⟨0, by decide⟩).color =
        palette ((0 : Nat) : Int) PALETTE)
    ∧ (([comboBarTrace, comboLineTraceB, comboLineTraceC].get
          ⟨(["a"] : List String).length + 0, by decide⟩).color =
        palette (((0 : Nat) : Int) + 1) PALETTE) :=
  trace_palette_colors comboDf "x" ["a"] ["a"] ["b", "c"] 0 0 0
    [comboBarTrace] [comboBarTrace, comboLineTraceB, comboLineTraceC]
    (by rfl) (by decide) (by rfl) (by decide) (by decide) (by decide) (by decide)

/-- C8: the Layout built by the dist method carries the y-axis label
"Probability (%)" when prob is true and "Count" when prob is false or
omitted. -/
theorem dist_ylabel (values : PyStrList) (title : String) (label : Option String)
    (prob : Bool) (L : Layout)
    (h : Visualize.distAnnots values title label prob = Except.ok L) :
    L.ylabel = if prob then "Probability (%)" else "Count" := by
  unfold Visualize.distAnnots at h
  obtain ⟨xl, hxl, h2⟩ := ok_of_bind h
  injection h2 with h3
  subst h3
  rfl

/-- Witness for dist_ylabel at a concrete dist annotation build with prob
set. -/
theorem dist_ylabel_witness :
    ({ title := some "t", xlabel := "sales", ylabel := "Probability (%)",
       y2label := none } : Layout).ylabel =
      if true then "Probability (%)" else "Count" :=
  dist_ylabel (PyStrList.one "sales") "t" none true _ (by rfl)

/-- C9: _format_labels returns the override label when one is given, and
otherwise the column name with every underscore replaced by a space (same
length, pointwise substitution, no underscore surviving). -/
theorem format_labels_spec (c l : String) :
    format_labels (PyStrList.one c) (some l) = Except.ok l
    ∧ format_labels (PyStrList.one c) none = Except.ok (replaceUnderscores c)
    ∧ (replaceUnderscores c).data.length = c.data.length
    ∧ (∀ k : Nat, (replaceUnderscores c).data[k]? =
        (c.data[k]?).map (fun ch => if ch = '_' then ' ' else ch))
    ∧ (∀ ch, ch ∈ (replaceUnderscores c).data → ch ≠ '_') := by
  refine ⟨rfl, rfl, ?_, ?_, ?_⟩
  · simp [replaceUnderscores]
  · intro k
    simp [replaceUnderscores]
  · intro ch hch
    simp only [replaceUnderscores, List.mem_map] at hch
    obtain ⟨a, _, hfa⟩ := hch
    by_cases ha : a = '_'
    · rw [ha] at hfa
      simp only [if_pos rfl] at hfa
      rw [← hfa]
      decide
    · rw [if_neg ha] at hfa
      rw [← hfa]
      exact ha

/-- Witness for format_labels_spec at a concrete underscored column
name. -/
theorem format_labels_spec_witness :
    format_labels (PyStrList.one "unit_sales") none = Except.ok "unit sales" := by
  have h := (format_labels_spec "unit_sales" "L").2.1
  have h2 : replaceUnderscores "unit_sales" = "unit sales" := by decide
  rw [h2] at h
  exact h

theorem coercion_bind {α β : Type} (e : Except PyErr α) (f : α → Except PyErr β)
    (h : isCoercionE e = true) : isCoercionE (e >>= f) = true := by
  cases e with
  | error err =>
    simp only [err_bind]
    simp only [isCoercionE] at h ⊢
    exact h
  | ok a => simp [isCoercionE] at h

theorem coerceVals_bad (name : String) :
    ∀ col : List Val, col.any (fun v => (pyFloat v).isNone) = true →
      coerceVals name col = Except.error (PyErr.columnCoercion name) := by
  intro col
  induction col with
  | nil => intro h; simp at h
  | cons v rest ih =>
    intro h
    cases hv : pyFloat v with
    | none => simp [coerceVals, hv]
    | some q =>
      have hrest : rest.any (fun v => (pyFloat v).isNone) = true := by
        simp only [List.any_cons, Bool.or_eq_true] at h
        rcases h with h | h
        · rw [hv] at h
          simp at h
        · exact h
      simp [coerceVals, hv, ih hrest]

theorem coerceVals_good (name : String) :
    ∀ col : List Val, col.all (fun v => (pyFloat v).isSome) = true →
      ∃ qs, coerceVals name col = Except.ok qs := by
  intro col
  induction col with
  | nil => intro _; exact ⟨[], rfl⟩
  | cons v rest ih =>
    intro h
    simp only [List.all_cons, Bool.and_eq_true] at h
    obtain ⟨hv, hrest⟩ := h
    obtain ⟨q, hq⟩ := Option.isSome_iff_exists.mp hv
    obtain ⟨qs, hqs⟩ := ih hrest
    exact ⟨q :: qs, by simp [coerceVals, hq, hqs]⟩

theorem buildBars_coercion (df : DataFrame) (x : String) :
    ∀ (ys : List String) (n : Nat),
      (df.lookup x).isSome = true →
      ys.all (fun c => (df.lookup c).isSome) = true →
      (∀ k, k < ys.length → (palette ((n + k : Nat) : Int) PALETTE).isSome = true) →
      ys.any (fun c => hasNonNumeric df c) = true →
      isCoercionE (buildBars df x false n ys) = true := by
  intro ys
  induction ys with
  | nil => intro n _ _ _ hbad; simp at hbad
  | cons c rest ih =>
    intro n hx hcols hpal hbad
    simp only [List.all_cons, Bool.and_eq_true] at hcols
    obtain ⟨hc, hcolsrest⟩ := hcols
    obtain ⟨col, hcol⟩ := Option.isSome_iff_exists.mp hc
    by_cases hbadc : hasNonNumeric df c = true
    · have hbadcol : col.any (fun v => (pyFloat v).isNone) = true := by
        unfold hasNonNumeric at hbadc
        rw [hcol] at hbadc
        exact hbadc
      have hmk : make_vbar_plot df x c (n : Int) = Except.error (PyErr.columnCoercion c) := by
        unfold make_vbar_plot dfGet
        rw [hcol]
        simp [coerceVals_bad c col hbadcol]
      simp [buildBars, hmk, isCoercionE, PyErr.isCoercionErr]
    · have hgood : col.all (fun v => (pyFloat v).isSome) = true := by
        rw [List.all_eq_true]
        intro v hv
        cases hfv : pyFloat v with
        | some q => simp [hfv]
        | none =>
          have : col.any (fun v => (pyFloat v).isNone) = true :=
            List.any_eq_true.mpr ⟨v, hv, by rw [hfv]; rfl⟩
          have : hasNonNumeric df c = true := by
            unfold hasNonNumeric
            rw [hcol]
            exact this
          exact absurd this hbadc
      obtain ⟨qs, hqs⟩ := coerceVals_good c col hgood
      obtain ⟨xcol, hxcol⟩ := Option.isSome_iff_exists.mp hx
      have hp0 : (palette ((n : Nat) : Int) PALETTE).isSome = true := by
        have := hpal 0 (by simp)
        simpa using this
      obtain ⟨pc, hpc⟩ := Option.isSome_iff_exists.mp hp0
      have hpe : paletteE (n : Int) = Except.ok pc := by
        unfold paletteE
        rw [hpc]
      have hmk : make_vbar_plot df x c (n : Int) = Except.ok
          { kind := TraceKind.bar, x := xcol, y := qs.map Val.num, name := c,
            color := some pc } := by
        unfold make_vbar_plot dfGet
        rw [hcol, hxcol]
        simp [hqs, hpe]
      have hrestbad : rest.any (fun c => hasNonNumeric df c) = true := by
        simp only [List.any_cons, Bool.or_eq_true] at hbad
        rcases hbad with h | h
        · exact absurd h hbadc
        · exact h
      have hpal' : ∀ k, k < rest.length → (palette ((n + 1 + k : Nat) : Int) PALETTE).isSome = true := by
        intro k hk
        have h2 := hpal (k + 1) (by simp only [List.length_cons]; omega)
        have harith : (n + (k + 1) : Nat) = (n + 1 + k : Nat) := by omega
        rw [harith] at h2
        exact h2
      have hrec := ih (n + 1) hx hcolsrest hpal' hrestbad
      simp only [buildBars, Bool.false_eq_true, ite_false, hmk, ok_bind]
      exact coercion_bind _ _ hrec

theorem buildDists_coercion (df : DataFrame) (ov pr cm : Bool) :
    ∀ (ys : List String) (n : Nat),
      ys.all (fun c => (df.lookup c).isSome) = true →
      (∀ k, k < ys.length → (palette ((n + k : Nat) : Int) PALETTE).isSome = true) →
      ys.any (fun c => hasNonNumeric df c) = true →
      isCoercionE (buildDists df ov pr cm n ys) = true := by
  intro ys
  induction ys with
  | nil => intro n _ _ hbad; simp at hbad
  | cons c rest ih =>
    intro n hcols hpal hbad
    simp only [List.all_cons, Bool.and_eq_true] at hcols
    obtain ⟨hc, hcolsrest⟩ := hcols
    obtain ⟨col, hcol⟩ := Option.isSome_iff_exists.mp hc
    by_cases hbadc : hasNonNumeric df c = true
    · have hbadcol : col.any (fun v => (pyFloat v).isNone) = true := by
        unfold hasNonNumeric at hbadc
        rw [hcol] at hbadc
        exact hbadc
      have hmk : make_dist_plot df c (n : Int) ov pr cm =
          Except.error (PyErr.columnCoercion c) := by
        unfold make_dist_plot dfGet
        rw [hcol]
        simp [coerceVals_bad c col hbadcol]
      simp [buildDists, hmk, isCoercionE, PyErr.isCoercionErr]
    · have hgood : col.all (fun v => (pyFloat v).isSome) = true := by
        rw [List.all_eq_true]
        intro v hv
        cases hfv : pyFloat v with
        | some q => simp [hfv]
        | none =>
          have : col.any (fun v => (pyFloat v).isNone) = true :=
            List.any_eq_true.mpr ⟨v, hv, by rw [hfv]; rfl⟩
          have : hasNonNumeric df c = true := by
            unfold hasNonNumeric
            rw [hcol]
            exact this
          exact absurd this hbadc
      obtain ⟨qs, hqs⟩ := coerceVals_good c col hgood
      have hp0 : (palette ((n : Nat) : Int) PALETTE).isSome = true := by
        have := hpal 0 (by simp)
        simpa using this
      obtain ⟨pc, hpc⟩ := Option.isSome_iff_exists.mp hp0
      have hpe : paletteE (n : Int) = Except.ok pc := by
        unfold paletteE
        rw [hpc]
      have hmk : make_dist_plot df c (n : Int) ov pr cm = Except.ok
          { kind := TraceKind.histogram, x := qs.map Val.num,
            opacity := if ov then some (1 / 2) else none, name := c,
            color := some pc,
            histnorm := if pr then some "probability" else none,
            cumulative_enabled := some cm } := by
        unfold make_dist_plot dfGet
        rw [hcol]
        simp [hqs, hpe]
      have hrestbad : rest.any (fun c => hasNonNumeric df c) = true := by
        simp only [List.any_cons, Bool.or_eq_true] at hbad
        rcases hbad with h | h
        · exact absurd h hbadc
        · exact h
      have hpal' : ∀ k, k < rest.length → (palette ((n + 1 + k : Nat) : Int) PALETTE).isSome = true := by
        intro k hk
        have h2 := hpal (k + 1) (by simp only [List.length_cons]; omega)
        have harith : (n + (k + 1) : Nat) = (n + 1 + k : Nat) := by omega
        rw [harith] at h2
        exact h2
      have hrec := ih (n + 1) hcolsrest hpal' hrestbad
      simp only [buildDists, hmk, ok_bind]
      exact coercion_bind _ _ hrec

/-- C4: whenever a value column referenced by a bar or dist call contains
a non-numeric entry (and the referenced columns exist, with at most 21
value columns so that every palette index is defined), the call fails
with the column-coercion error, so nothing at all is handed to the
renderer. -/
theorem coercion_failure
    (df : DataFrame) (x : String) (ys : List String) (title : String)
    (stack : Bool) (xr yr : Option (List ℚ)) (xl yl : Option String)
    (label : Option String) (ov pr cm : Bool)
    (hx : (df.lookup x).isSome = true)
    (hcols : ys.all (fun c => (df.lookup c).isSome) = true)
    (hlen : ys.length ≤ 21)
    (hbad : ys.any (fun c => hasNonNumeric df c) = true) :
    isCoercionE (Visualize.bar df x (PyStrList.many ys) title stack false xr yr xl yl) = true
    ∧ isCoercionE (Visualize.dist df (PyStrList.many ys) title xr yr label ov pr cm) = true := by
  have hpal : ∀ k, k < ys.length → (palette ((0 + k : Nat) : Int) PALETTE).isSome = true := by
    intro k hk
    have hk20 : k ≤ 20 := by omega
    have h20 : ∀ m : Nat, m ≤ 20 → (palette ((m : Nat) : Int) PALETTE).isSome = true := by decide
    simpa using h20 k hk20
  constructor
  · have hb := buildBars_coercion df x ys 0 hx hcols hpal hbad
    simp only [Visualize.bar, PyStrList.toList]
    exact coercion_bind _ _ hb
  · have hd := buildDists_coercion df ov pr cm ys 0 hcols hpal hbad
    simp only [Visualize.dist, PyStrList.toList]
    exact coercion_bind _ _ hd

/-- Witness for coercion_failure on a dataset whose sales column holds
the non-numeric string "oops". -/
theorem coercion_failure_witness :
    isCoercionE (Visualize.bar badDf "month" (PyStrList.many ["sales"]) "Sales"
      false false none none none none) = true
    ∧ isCoercionE (Visualize.dist badDf (PyStrList.many ["sales"]) "Sales"
      none none none false false false) = true :=
  coercion_failure badDf "month" ["sales"] "Sales" false none none none none
    none false false false (by decide) (by decide) (by decide) (by decide)

end Bts
